import Mathlib

/-!
Verification of the signal-ingestion-and-alerting pipeline of the
`x-news-crawler` dashboard, shallowly embedded in Lean 4.

The embedding mirrors, definition by definition, the TypeScript sources:
  * the data model of `lib/db/schema.ts` (`Tweet`, `Alert`, `AlertCondition`,
    `AlertAction`, `VelocitySnapshot`);
  * the alert engine of `lib/alerts/engine.ts` (`detectSpike`,
    `evaluateCondition`, `evaluateAlert`, `executeAction`, `triggerAlert`,
    `AlertEngine.checkAlerts`);
  * the RSS merge of `lib/api/rss-feeds.ts` (`fetchAllRssFeeds`,
    `filterByKeywords`);
  * the fallback chain of the `GET /api/tweets` route.

Modelling conventions:
  * JavaScript numbers carrying counts are embedded as `ℤ`; numbers carrying
    averages, thresholds and sentiment scores are embedded as `ℚ` (the claims
    under scrutiny involve only arithmetic that is exact in both binary
    floating point and `ℚ`).
  * `Date` values are embedded as their epoch-milliseconds integer
    (`Date.prototype.getTime`).
  * Network effects are embedded as explicit oracle parameters: a webhook
    dispatch oracle `String → Bool` standing for `response.ok` of the
    `fetch` call, and per-adapter outcome values standing for settled
    promises.
  * Case-insensitive matching (`String.prototype.toLowerCase` /
    `String.prototype.includes`) is embedded character-exactly for the ASCII
    range, which covers all inputs appearing in the development.
-/

/-- Tweet category tags, `TweetCategory` of `lib/db/schema.ts`. -/
inductive TweetCategory where
  | breaking_news
  | rumor
  | opinion
  | analysis
  | official
  | spam_tag
  | unknown
deriving DecidableEq, Repr

/-- Sentiment label of `SentimentAnalysis` in `lib/db/schema.ts`. -/
inductive SentimentLabel where
  | positive
  | negative
  | neutral
deriving DecidableEq, Repr

/-- Provenance tag, the `source` field of `Tweet` in `lib/db/schema.ts`. -/
inductive TweetSource where
  | api
  | mock
  | crawler
deriving DecidableEq, Repr

/-- The AI enrichment record `SentimentAnalysis` of `lib/db/schema.ts`.
`score` lies in `[-1, 1]`, `confidence` in `[0, 1]`; `analyzedAt` is an
epoch timestamp. -/
structure SentimentAnalysis where
  score : ℚ
  label : SentimentLabel
  confidence : ℚ
  keywords : List String
  analyzedAt : ℤ
deriving DecidableEq, Repr

/-- The nested `author` record of `Tweet` in `lib/db/schema.ts`. -/
structure TweetAuthor where
  id : String
  username : String
  displayName : String
  avatarUrl : String
  verified : Bool
  followerCount : ℤ
deriving DecidableEq, Repr

/-- The nested `metrics` record of `Tweet` in `lib/db/schema.ts`. -/
structure TweetMetrics where
  likes : ℤ
  retweets : ℤ
  replies : ℤ
  views : ℤ
deriving DecidableEq, Repr

/-- The content item record `Tweet` of `lib/db/schema.ts`.  The optional
enrichment fields (`sentiment?`, `category?`, `spamScore?`, `isFiltered?`)
are embedded as `Option`s: `none` models the field being absent. -/
structure Tweet where
  id : String
  text : String
  author : TweetAuthor
  metrics : TweetMetrics
  createdAt : ℤ
  source : TweetSource
  sentiment : Option SentimentAnalysis
  category : Option TweetCategory
  spamScore : Option ℚ
  isFiltered : Option Bool
deriving DecidableEq, Repr

/-- Condition tag of `AlertCondition` in `lib/db/schema.ts`. -/
inductive ConditionType where
  | velocity_spike
  | sentiment_shift
  | keyword_match
  | category_match
deriving DecidableEq, Repr

/-- The (string-tagged, optional-field) `AlertCondition` record of
`lib/db/schema.ts`. -/
structure AlertCondition where
  type : ConditionType
  threshold : Option ℚ
  keywords : Option (List String)
  categories : Option (List TweetCategory)
  windowMinutes : Option ℚ
deriving DecidableEq, Repr

/-- Action tag of `AlertAction` in `lib/db/schema.ts`. -/
inductive ActionType where
  | discord_webhook
  | in_app_notification
  | email
deriving DecidableEq, Repr

/-- The `AlertAction` record of `lib/db/schema.ts`. -/
structure AlertAction where
  type : ActionType
  webhookUrl : Option String
  email : Option String
deriving DecidableEq, Repr

/-- The `Alert` record of `lib/db/schema.ts`. -/
structure Alert where
  id : String
  name : String
  enabled : Bool
  conditions : List AlertCondition
  actions : List AlertAction
  createdAt : ℤ
  lastTriggeredAt : Option ℤ
  triggerCount : ℕ
deriving DecidableEq, Repr

/-- The `VelocitySnapshot` record of `lib/db/schema.ts` (the
`topCategories` / `topKeywords` summaries are carried verbatim). -/
structure VelocitySnapshot where
  id : String
  timestamp : ℤ
  count : ℤ
  sentimentAvg : ℚ
  topCategories : List (TweetCategory × ℤ)
  topKeywords : List (String × ℤ)
deriving DecidableEq, Repr

/-- Severity levels of `SpikeDetectionResult` in `lib/alerts/engine.ts`. -/
inductive Severity where
  | low
  | medium
  | high
  | critical
deriving DecidableEq, Repr

/-- `SpikeDetectionResult` of `lib/alerts/engine.ts`. -/
structure SpikeDetectionResult where
  isSpike : Bool
  severity : Severity
  percentageIncrease : ℚ
  currentCount : ℤ
  averageCount : ℚ
deriving DecidableEq, Repr

/-- `detectSpike(snapshots, thresholdPercent = 300)` of
`lib/alerts/engine.ts`, embedded clause by clause:
fewer than 2 snapshots report no spike; otherwise the average is taken over
all counts except the most recent (`snapshots.slice(0, -1)`); a zero
average selects the absolute-count heuristic branch (with
`percentageIncrease` reported as `100`); otherwise
`percentageIncrease = (recent - average) / average * 100` with severity
tiers at 500/400/300. -/
def detectSpike (snapshots : List VelocitySnapshot) (thresholdPercent : ℚ) :
    SpikeDetectionResult :=
  if snapshots.length < 2 then
    { isSpike := false
      severity := .low
      percentageIncrease := 0
      currentCount := ((snapshots.head?.map (·.count)).getD 0)
      averageCount := 0 }
  else
    let recentCount : ℤ := (snapshots.getLast?.map (·.count)).getD 0
    let previousCounts : List ℤ := snapshots.dropLast.map (·.count)
    let averageCount : ℚ := (previousCounts.sum : ℚ) / (previousCounts.length : ℚ)
    if averageCount = 0 then
      { isSpike := decide (10 < recentCount)
        severity := if 50 < recentCount then .high
          else if 20 < recentCount then .medium else .low
        percentageIncrease := 100
        currentCount := recentCount
        averageCount := 0 }
    else
      let percentageIncrease : ℚ :=
        ((recentCount : ℚ) - averageCount) / averageCount * 100
      { isSpike := decide (thresholdPercent ≤ percentageIncrease)
        severity := if 500 ≤ percentageIncrease then .critical
          else if 400 ≤ percentageIncrease then .high
          else if 300 ≤ percentageIncrease then .medium else .low
        percentageIncrease := percentageIncrease
        currentCount := recentCount
        averageCount := averageCount }

/-- The `AlertContext` record of `lib/alerts/engine.ts`: recent tweets
(newest first), the velocity history (oldest first), and the derived
velocities. -/
structure AlertContext where
  tweets : List Tweet
  snapshots : List VelocitySnapshot
  currentVelocity : ℚ
  averageVelocity : ℚ
deriving DecidableEq, Repr

/-- JavaScript's `x || d` applied to an optional numeric configuration
field: an absent value and the (falsy) value `0` both select the default. -/
def jsOr (x : Option ℚ) (d : ℚ) : ℚ :=
  match x with
  | none => d
  | some v => if v = 0 then d else v

/-- ASCII lower-casing of one character, the character-level content of
`String.prototype.toLowerCase` on the ASCII range. -/
def lowerChar (c : Char) : Char :=
  if 'A' ≤ c ∧ c ≤ 'Z' then Char.ofNat (c.toNat + 32) else c

/-- ASCII lower-casing of a string. -/
def lowerStr (s : String) : String :=
  ⟨s.data.map lowerChar⟩

/-- Does `hay` start with `needle`? (helper for substring containment). -/
def headMatch : List Char → List Char → Bool
  | _, [] => true
  | [], _ :: _ => false
  | a :: hs, b :: ns => a = b && headMatch hs ns

/-- Does `hay` contain `needle` as a contiguous run?  The character-level
content of `String.prototype.includes`. -/
def infixCheck : List Char → List Char → Bool
  | [], needle => needle.isEmpty
  | a :: hs, needle => headMatch (a :: hs) needle || infixCheck hs needle

/-- `hay.includes(needle)` on strings. -/
def strIncludes (hay needle : String) : Bool :=
  infixCheck hay.data needle.data

/-- Sentiment contribution of one tweet to the `sentiment_shift` sum:
`t.sentiment?.score || 0` of `lib/alerts/engine.ts`. -/
def sentScore (t : Tweet) : ℚ :=
  match t.sentiment with
  | some s => s.score
  | none => 0

/-- `evaluateCondition(condition, context)` of `lib/alerts/engine.ts`,
switch case by switch case:
  * `velocity_spike`: delegate to `detectSpike` with
    `condition.threshold || 300`;
  * `sentiment_shift`: fewer than 10 context tweets is `false`; otherwise
    the mean over the 20 most recent tweets of the present sentiment
    scores, divided by the number of those 20 tweets (absent sentiment
    contributes zero to the numerator but is counted in the denominator),
    compared against `condition.threshold || 0.5` in absolute value;
  * `keyword_match`: missing or empty keyword list is `false`; otherwise a
    case-insensitive substring scan of the 50 most recent tweets;
  * `category_match`: missing or empty category list is `false`; otherwise
    the number of the 20 most recent tweets with a category in the set is
    compared against `condition.threshold || 5`. -/
def evaluateCondition (condition : AlertCondition) (context : AlertContext) : Bool :=
  match condition.type with
  | .velocity_spike =>
      (detectSpike context.snapshots (jsOr condition.threshold 300)).isSpike
  | .sentiment_shift =>
      if context.tweets.length < 10 then false
      else
        let recentTweets := context.tweets.take 20
        let avgSentiment : ℚ :=
          ((recentTweets.filter (fun t => t.sentiment.isSome)).map sentScore).sum
            / (recentTweets.length : ℚ)
        decide (jsOr condition.threshold (1/2) ≤ |avgSentiment|)
  | .keyword_match =>
      match condition.keywords with
      | none => false
      | some kws =>
          if kws = [] then false
          else
            let recentTweets := context.tweets.take 50
            let lowered := kws.map lowerStr
            recentTweets.any fun t =>
              lowered.any fun kw => strIncludes (lowerStr t.text) kw
  | .category_match =>
      match condition.categories with
      | none => false
      | some cats =>
          if cats = [] then false
          else
            let recentTweets := context.tweets.take 20
            let matchCount :=
              (recentTweets.filter fun t =>
                match t.category with
                | some c => cats.contains c
                | none => false).length
            decide (jsOr condition.threshold 5 ≤ (matchCount : ℚ))

/-- `evaluateAlert(alert, context)` of `lib/alerts/engine.ts`: the enabled
gate followed by `alert.conditions.every(...)`.  Note that the source has
no guard for an empty condition list: `[].every` is vacuously `true`. -/
def evaluateAlert (alert : Alert) (context : AlertContext) : Bool :=
  alert.enabled && alert.conditions.all (fun c => evaluateCondition c context)

/-- `executeAction(action, data)` of `lib/alerts/engine.ts`, with the
network effect of the Discord `fetch` abstracted into the `webhook` oracle
(`webhook url` stands for `response.ok` of the POST to `url`); the message
payload built from the trigger data does not influence the reported
success.  A `discord_webhook` action without a configured URL reports
failure immediately (`if (!action.webhookUrl) return false`, which in
JavaScript also covers the empty string); `in_app_notification` and
`email` always report success after logging. -/
def executeAction (webhook : String → Bool) (action : AlertAction) : Bool :=
  match action.type with
  | .discord_webhook =>
      match action.webhookUrl with
      | none => false
      | some url => if url = "" then false else webhook url
  | .in_app_notification => true
  | .email => true

/-- `triggerAlert(alert, context)` of `lib/alerts/engine.ts`: every
configured action is executed (`Promise.all` over
`alert.actions.map(executeAction)`), and the overall result is
`results.some(r => r)`.  The context only feeds the notification payload,
not the success value. -/
def triggerAlert (webhook : String → Bool) (alert : Alert)
    (_context : AlertContext) : Bool :=
  (alert.actions.map (executeAction webhook)).any id

/-- The mutable fields of the `AlertEngine` class of
`lib/alerts/engine.ts` (`alerts`, `context`). -/
structure AlertEngineState where
  alerts : List Alert
  context : AlertContext
deriving DecidableEq, Repr

/-- One pass of the `for (const alert of this.alerts)` loop of
`AlertEngine.checkAlerts`, yielding the `triggered` list together with the
log of every action execution it caused (pairs of the alert and the
action handed to `executeAction`). -/
def checkAlertsGo (context : AlertContext) (webhook : String → Bool) :
    List Alert → List Alert × List (Alert × AlertAction)
  | [] => ([], [])
  | alert :: rest =>
      let r := checkAlertsGo context webhook rest
      if evaluateAlert alert context then
        (if triggerAlert webhook alert context then alert :: r.1 else r.1,
         alert.actions.map (fun a => (alert, a)) ++ r.2)
      else r

/-- Result of one `checkAlerts` tick: the engine state after the tick, the
returned `triggered` list, and the log of dispatched actions. -/
structure CheckAlertsResult where
  state : AlertEngineState
  triggered : List Alert
  dispatched : List (Alert × AlertAction)
deriving DecidableEq, Repr

/-- `AlertEngine.checkAlerts()` of `lib/alerts/engine.ts`: evaluate every
alert against the stored context, dispatch the actions of each alert whose
conditions all hold, and return those alerts whose dispatch reported at
least one success.  The method reads `this.alerts` and `this.context` and
writes neither, so the state after the tick is the state before it. -/
def AlertEngineState.checkAlerts (s : AlertEngineState)
    (webhook : String → Bool) : CheckAlertsResult :=
  let r := checkAlertsGo s.context webhook s.alerts
  { state := s, triggered := r.1, dispatched := r.2 }

/-- Sort relation of the RSS merge: `a` may precede `b` exactly when
`b.createdAt.getTime() - a.createdAt.getTime() ≤ 0`, the comparator
`(a, b) => b.createdAt.getTime() - a.createdAt.getTime()` of
`lib/api/rss-feeds.ts`. -/
def newestFirst (a b : Tweet) : Prop :=
  b.createdAt ≤ a.createdAt

instance : DecidableRel newestFirst := fun a b =>
  inferInstanceAs (Decidable (b.createdAt ≤ a.createdAt))

instance : IsTotal Tweet newestFirst :=
  ⟨fun a b => le_total b.createdAt a.createdAt⟩

instance : IsTrans Tweet newestFirst :=
  ⟨fun _ _ _ h h' => le_trans h' h⟩

/-- `fetchAllRssFeeds(sourceIds, limit)` of `lib/api/rss-feeds.ts`, from
the point where the per-feed promises have settled: the input is the list
of settled outcomes in source order (`Promise.allSettled` preserves it
regardless of completion order), a fulfilled entry carrying that feed's
tweets and a rejected entry carrying its error message.  Fulfilled batches
are concatenated, error messages collected, and the merged list is sorted
by `createdAt` descending with the ECMAScript stable sort, embedded as the
(stable) insertion sort over `newestFirst`. -/
def fetchAllRssFeeds (results : List (Except String (List Tweet))) :
    List Tweet × List String :=
  let tweets := results.foldl
    (fun acc r => match r with | .ok ts => acc ++ ts | .error _ => acc) []
  let errors := results.foldl
    (fun acc r => match r with | .ok _ => acc | .error e => acc ++ [e]) []
  (List.insertionSort newestFirst tweets, errors)

/-- `filterByKeywords(tweets, keywords)` of `lib/api/rss-feeds.ts`:
case-insensitive substring filter, everything passing when the keyword
list is empty. -/
def filterByKeywords (tweets : List Tweet) (keywords : List String) :
    List Tweet :=
  if keywords = [] then tweets
  else
    let lower := keywords.map lowerStr
    tweets.filter fun t => lower.any fun kw => strIncludes (lowerStr t.text) kw

/-- Settled outcome of the NewsAPI tier (and, with the same shape, of the
X API tier) of the `GET /api/tweets` route: the tier is skipped when the
API key is unconfigured, an HTTP / status failure is caught and falls
through, and a success carries the transformed tweets. -/
inductive ApiOutcome where
  | unconfigured
  | failed
  | ok (tweets : List Tweet)
deriving DecidableEq, Repr

/-- Provenance tag of the route response (`source` field). -/
inductive RouteSource where
  | rss
  | newsapi
  | x_api
  | mock
deriving DecidableEq, Repr

/-- Body of the `GET /api/tweets` response (the `meta` diagnostics are
omitted; the claims only concern `tweets` and `source`). -/
structure RouteResponse where
  tweets : List Tweet
  source : RouteSource
deriving DecidableEq, Repr

/-- The RSS tier of the route: on a successful `fetchAllRssFeeds` call the
merged tweets are keyword-filtered when keywords were supplied and capped
at `max`; a thrown error yields nothing.  The route falls through exactly
when this list is empty. -/
def rssTierItems (max : ℕ) (keywords : List String)
    (rss : Option (List Tweet × List String)) : List Tweet :=
  match rss with
  | none => []
  | some r =>
      let filtered := if keywords ≠ [] then filterByKeywords r.1 keywords else r.1
      filtered.take max

/-- The fallback chain of `GET /api/tweets` (`app/api/tweets/route.ts`),
from the point where the remote calls have settled: RSS tier first (kept
only when non-empty after filtering and capping), then NewsAPI, then the
X API — each returned directly when configured and successful, with no
emptiness check — and finally the mock tier building
`Array.from({length: max}, () => generateMockTweet())`, embedded with the
generator abstracted as `mockTweet`. -/
def getTweets (max : ℕ) (keywords : List String)
    (rss : Option (List Tweet × List String))
    (newsApi : ApiOutcome) (xApi : ApiOutcome)
    (mockTweet : ℕ → Tweet) : RouteResponse :=
  let sliced := rssTierItems max keywords rss
  if sliced ≠ [] then { tweets := sliced, source := .rss }
  else
    match newsApi with
    | .ok tweets => { tweets := tweets, source := .newsapi }
    | _ =>
        match xApi with
        | .ok tweets => { tweets := tweets, source := .x_api }
        | _ => { tweets := (List.range max).map mockTweet, source := .mock }

/-- Fixture: a velocity snapshot carrying only a count. -/
def mkSnap (c : ℤ) : VelocitySnapshot :=
  { id := "s", timestamp := 0, count := c, sentimentAvg := 0,
    topCategories := [], topKeywords := [] }

/-- Fixture: the velocity history `[10, 10, 10, 40]` of the spec's
worked example. -/
def hist4 : List VelocitySnapshot :=
  [mkSnap 10, mkSnap 10, mkSnap 10, mkSnap 40]


/-- The non-current counts of a history, `snapshots.slice(0, -1).map(s => s.count)`. -/
def prevCounts (snaps : List VelocitySnapshot) : List ℤ :=
  snaps.dropLast.map (·.count)

/-- The most recent count of a history,
`snapshots[snapshots.length - 1].count` (`0` when the history is empty). -/
def lastCount (snaps : List VelocitySnapshot) : ℤ :=
  (snaps.getLast?.map (·.count)).getD 0

/-- C5 counterexample: the claimed formula
`percentageIncrease = (current - average) / average * 100` does not hold
for every history with at least 2 snapshots.  For the concrete history
`[0, 40]` the average over the non-current snapshots is `0` and the code
reports the hard-coded `percentageIncrease = 100` of its zero-average
branch, while the claimed formula has no value there (under the exact
arithmetic of the embedding, where `x / 0 = 0`, it evaluates to `0 ≠ 100`). -/
theorem detectSpike_zero_average_formula_fails :
    2 ≤ ([mkSnap 0, mkSnap 40] : List VelocitySnapshot).length ∧
    (detectSpike [mkSnap 0, mkSnap 40] 300).averageCount = 0 ∧
    (detectSpike [mkSnap 0, mkSnap 40] 300).currentCount = 40 ∧
    (detectSpike [mkSnap 0, mkSnap 40] 300).percentageIncrease = 100 ∧
    (((40 : ℚ) - 0) / 0 * 100 = 0) ∧ (100 : ℚ) ≠ 0 := by
  refine ⟨by norm_num, ?_, ?_, ?_, by norm_num, by norm_num⟩ <;>
    norm_num [detectSpike, mkSnap, List.dropLast]

/-- C5 (amended): for every history with at least 2 snapshots whose
non-current counts do not sum to zero (equivalently, whose average over
the non-current snapshots is nonzero), `averageCount` is the mean of
`count` over all snapshots except the most recent and
`percentageIncrease = (current - average) / average * 100`; and for the
concrete history `[10, 10, 10, 40]` at the default threshold `300` the
result is `average = 10`, `percentageIncrease = 300`, severity `medium`,
`isSpike = true`. -/
theorem detectSpike_percentage_formula :
    (∀ (snaps : List VelocitySnapshot) (t : ℚ),
      2 ≤ snaps.length →
      (prevCounts snaps).sum ≠ 0 →
      (detectSpike snaps t).averageCount =
        ((prevCounts snaps).sum : ℚ) / ((prevCounts snaps).length : ℚ) ∧
      (detectSpike snaps t).percentageIncrease =
        ((lastCount snaps : ℚ) -
            ((prevCounts snaps).sum : ℚ) / ((prevCounts snaps).length : ℚ)) /
          (((prevCounts snaps).sum : ℚ) / ((prevCounts snaps).length : ℚ)) * 100) ∧
    detectSpike hist4 300 =
      { isSpike := true, severity := .medium, percentageIncrease := 300,
        currentCount := 40, averageCount := 10 } := by
  constructor
  · intro snaps t h2 hsum
    have hnlt : ¬ snaps.length < 2 := by omega
    have havg : (((prevCounts snaps).sum : ℤ) : ℚ) /
        (((prevCounts snaps).length : ℕ) : ℚ) ≠ 0 := by
      apply div_ne_zero
      · exact Int.cast_ne_zero.mpr hsum
      · have h1 : (prevCounts snaps).length ≠ 0 := by
          have := List.length_dropLast snaps
          simp only [prevCounts, List.length_map]
          omega
        exact Nat.cast_ne_zero.mpr h1
    simp only [detectSpike, prevCounts, lastCount] at havg ⊢
    rw [if_neg hnlt, if_neg havg]
    exact ⟨rfl, rfl⟩
  · norm_num [detectSpike, hist4, mkSnap, List.dropLast]

/-- C5 witness: the amended formula applied at the concrete history
`[10, 10, 10, 40]` with threshold `300`, whose hypotheses hold there. -/
theorem detectSpike_percentage_formula_witness :
    2 ≤ hist4.length ∧
    (prevCounts hist4).sum ≠ 0 ∧
    ((detectSpike hist4 300).averageCount =
        ((prevCounts hist4).sum : ℚ) / ((prevCounts hist4).length : ℚ) ∧
      (detectSpike hist4 300).percentageIncrease =
        ((lastCount hist4 : ℚ) -
            ((prevCounts hist4).sum : ℚ) / ((prevCounts hist4).length : ℚ)) /
          (((prevCounts hist4).sum : ℚ) / ((prevCounts hist4).length : ℚ)) * 100) :=
  ⟨by decide, by decide,
    detectSpike_percentage_formula.1 hist4 300 (by decide) (by decide)⟩

/-- C7: for every history with at least 2 snapshots whose non-current
counts sum to zero (so the average over the non-current snapshots is
zero), `detectSpike` uses the absolute-count heuristic: `isSpike` iff the
current count exceeds 10, severity `high` above 50, `medium` above 20 and
`low` otherwise, and it reports `averageCount = 0` rather than dividing by
zero. -/
theorem detectSpike_zero_average_heuristic :
    ∀ (snaps : List VelocitySnapshot) (t : ℚ),
      2 ≤ snaps.length →
      (prevCounts snaps).sum = 0 →
      (detectSpike snaps t).isSpike = decide (10 < lastCount snaps) ∧
      (detectSpike snaps t).severity =
          (if 50 < lastCount snaps then .high
           else if 20 < lastCount snaps then .medium else .low) ∧
      (detectSpike snaps t).averageCount = 0 := by
  intro snaps t h2 hsum
  have hnlt : ¬ snaps.length < 2 := by omega
  have havg : (((prevCounts snaps).sum : ℤ) : ℚ) /
      (((prevCounts snaps).length : ℕ) : ℚ) = 0 := by
    rw [show (((prevCounts snaps).sum : ℤ) : ℚ) = 0 from
      by rw [hsum]; exact Int.cast_zero]
    exact zero_div _
  simp only [detectSpike, prevCounts, lastCount] at havg ⊢
  rw [if_neg hnlt, if_pos havg]
  exact ⟨rfl, rfl, rfl⟩

/-- C7 witness: the heuristic applied at the concrete history `[0, 60]`,
where the non-current average is zero and the current count `60` yields a
spike of severity `high`. -/
theorem detectSpike_zero_average_heuristic_witness :
    2 ≤ ([mkSnap 0, mkSnap 60] : List VelocitySnapshot).length ∧
    (prevCounts [mkSnap 0, mkSnap 60]).sum = 0 ∧
    ((detectSpike [mkSnap 0, mkSnap 60] 300).isSpike =
        decide (10 < lastCount [mkSnap 0, mkSnap 60]) ∧
      (detectSpike [mkSnap 0, mkSnap 60] 300).severity =
          (if 50 < lastCount [mkSnap 0, mkSnap 60] then .high
           else if 20 < lastCount [mkSnap 0, mkSnap 60] then .medium else .low) ∧
      (detectSpike [mkSnap 0, mkSnap 60] 300).averageCount = 0) :=
  ⟨by decide, by decide,
    detectSpike_zero_average_heuristic [mkSnap 0, mkSnap 60] 300 (by decide) (by decide)⟩

/-- Fixture: a bare tweet with the given id, text and creation time and no
enrichment. -/
def mkTweet (i text : String) (createdAt : ℤ) : Tweet :=
  { id := i, text := text
    author := { id := "u", username := "u", displayName := "u",
                avatarUrl := "", verified := false, followerCount := 0 }
    metrics := { likes := 0, retweets := 0, replies := 0, views := 0 }
    createdAt := createdAt, source := .mock
    sentiment := none, category := none, spamScore := none, isFiltered := none }

/-- Fixture: an `in_app_notification` action. -/
def inAppAction : AlertAction :=
  { type := .in_app_notification, webhookUrl := none, email := none }

/-- Fixture: a `discord_webhook` action with a configured URL. -/
def discordAction : AlertAction :=
  { type := .discord_webhook, webhookUrl := some "https://discord.test/hook",
    email := none }

/-- Fixture: a webhook oracle on which every POST fails. -/
def failingWebhook : String → Bool := fun _ => false

/-- Fixture: an enabled alert with an empty condition list. -/
def emptyCondAlert : Alert :=
  { id := "a1", name := "no conditions", enabled := true, conditions := [],
    actions := [inAppAction], createdAt := 0, lastTriggeredAt := none,
    triggerCount := 0 }

/-- Fixture: an empty evaluation context. -/
def emptyContext : AlertContext :=
  { tweets := [], snapshots := [], currentVelocity := 0, averageVelocity := 0 }

/-- C1: the code has no guard for `conditions = []`.  An enabled alert
with zero conditions evaluates to `true` for the empty context
(`[].every` is vacuously true), `checkAlerts` reports it triggered, and
its action is dispatched — where the spec's invariant demands "no
trigger". -/
theorem empty_conditions_alert_triggers :
    evaluateAlert emptyCondAlert emptyContext = true ∧
    (AlertEngineState.checkAlerts ⟨[emptyCondAlert], emptyContext⟩
        failingWebhook).triggered = [emptyCondAlert] ∧
    (AlertEngineState.checkAlerts ⟨[emptyCondAlert], emptyContext⟩
        failingWebhook).dispatched = [(emptyCondAlert, inAppAction)] :=
  ⟨rfl, rfl, rfl⟩

/-- Fixture: a `keyword_match` condition on the keyword `btc`. -/
def btcCond : AlertCondition :=
  { type := .keyword_match, threshold := none, keywords := some ["btc"],
    categories := none, windowMinutes := none }

/-- Fixture: an enabled alert triggering on the keyword `btc` with one
in-app action. -/
def btcAlert : Alert :=
  { id := "a2", name := "btc keyword", enabled := true,
    conditions := [btcCond], actions := [inAppAction], createdAt := 0,
    lastTriggeredAt := none, triggerCount := 0 }

/-- Fixture: a context whose single tweet mentions BTC. -/
def btcContext : AlertContext :=
  { tweets := [mkTweet "t1" "BTC pumps hard" 1000], snapshots := [],
    currentVelocity := 0, averageVelocity := 0 }

/-- Fixture: an engine holding the BTC alert and the BTC context. -/
def btcEngine : AlertEngineState :=
  { alerts := [btcAlert], context := btcContext }

/-- C2: `checkAlerts` reports the BTC alert as triggered (its in-app
action succeeded), yet the engine state after the tick is unchanged: the
alert record still carries `triggerCount = 0` and no `lastTriggeredAt`.
Neither `checkAlerts` nor any other code path of the repository increments
`triggerCount` or sets `lastTriggeredAt`, contradicting the spec's
update-on-success step (the UI even renders a "Nx triggered" badge that
can never become positive). -/
theorem checkAlerts_never_updates_triggerCount :
    evaluateAlert btcAlert btcContext = true ∧
    (btcEngine.checkAlerts failingWebhook).triggered = [btcAlert] ∧
    (btcEngine.checkAlerts failingWebhook).state = btcEngine ∧
    (btcEngine.checkAlerts failingWebhook).state.alerts.map (·.triggerCount)
        = [0] ∧
    (btcEngine.checkAlerts failingWebhook).state.alerts.map (·.lastTriggeredAt)
        = [none] := by
  refine ⟨?_, ?_, rfl, rfl, rfl⟩ <;> decide

/-- Every alert in the `triggered` list of a `checkAlerts` pass satisfied
its conditions, and every logged action execution belongs to an alert that
satisfied its conditions. -/
theorem checkAlertsGo_sound (context : AlertContext) (webhook : String → Bool) :
    ∀ alerts : List Alert,
      (∀ x ∈ (checkAlertsGo context webhook alerts).1,
          evaluateAlert x context = true) ∧
      (∀ p ∈ (checkAlertsGo context webhook alerts).2,
          evaluateAlert p.1 context = true)
  | [] => by simp [checkAlertsGo]
  | alert :: rest => by
      obtain ⟨ih1, ih2⟩ := checkAlertsGo_sound context webhook rest
      constructor
      · intro x hx
        by_cases h : evaluateAlert alert context = true
        · by_cases ht : triggerAlert webhook alert context = true
          · simp only [checkAlertsGo, if_pos h, if_pos ht, List.mem_cons] at hx
            rcases hx with rfl | hx
            exacts [h, ih1 x hx]
          · simp only [checkAlertsGo, if_pos h, if_neg ht] at hx
            exact ih1 x hx
        · simp only [checkAlertsGo, if_neg h] at hx
          exact ih1 x hx
      · intro p hp
        by_cases h : evaluateAlert alert context = true
        · simp only [checkAlertsGo, if_pos h, List.mem_append, List.mem_map] at hp
          rcases hp with ⟨a, _, rfl⟩ | hp
          exacts [h, ih2 p hp]
        · simp only [checkAlertsGo, if_neg h] at hp
          exact ih2 p hp

/-- C9: a disabled alert is gated out before its conditions are looked at:
for every engine state (whatever its context, spiking or not), a disabled
alert evaluates to `false`, never appears in the `triggered` list, has
none of its actions dispatched, and the engine state — and with it the
alert's `triggerCount` — is unchanged by the tick. -/
theorem disabled_alert_never_dispatches :
    ∀ (s : AlertEngineState) (webhook : String → Bool) (a : Alert),
      a.enabled = false →
      evaluateAlert a s.context = false ∧
      a ∉ (s.checkAlerts webhook).triggered ∧
      (∀ act : AlertAction, (a, act) ∉ (s.checkAlerts webhook).dispatched) ∧
      (s.checkAlerts webhook).state = s := by
  intro s webhook a ha
  have hev : evaluateAlert a s.context = false := by
    simp [evaluateAlert, ha]
  obtain ⟨h1, h2⟩ := checkAlertsGo_sound s.context webhook s.alerts
  refine ⟨hev, ?_, ?_, rfl⟩
  · intro hmem
    have := h1 a hmem
    simp [hev] at this
  · intro act hmem
    have := h2 (a, act) hmem
    simp [hev] at this

/-- Fixture: a `velocity_spike` condition with no configured threshold. -/
def spikeCond : AlertCondition :=
  { type := .velocity_spike, threshold := none, keywords := none,
    categories := none, windowMinutes := none }

/-- Fixture: a disabled alert carrying a spike condition. -/
def disabledAlert : Alert :=
  { id := "a3", name := "disabled spike", enabled := false,
    conditions := [spikeCond], actions := [inAppAction], createdAt := 0,
    lastTriggeredAt := none, triggerCount := 0 }

/-- Fixture: a context whose velocity history `[0, 60]` exhibits a spike
(zero non-current average, current count 60). -/
def spikeContext : AlertContext :=
  { tweets := [], snapshots := [mkSnap 0, mkSnap 60],
    currentVelocity := 60, averageVelocity := 0 }

/-- Fixture: an engine holding only the disabled alert, in the spiking
context. -/
def spikeEngine : AlertEngineState :=
  { alerts := [disabledAlert], context := spikeContext }

/-- C9 witness: the disabled-alert theorem applied to the concrete
disabled alert inside the spiking context; the context really is spiking
(the alert's own condition would hold were the alert enabled). -/
theorem disabled_alert_never_dispatches_witness :
    disabledAlert.enabled = false ∧
    (detectSpike spikeContext.snapshots 300).isSpike = true ∧
    (evaluateAlert disabledAlert spikeEngine.context = false ∧
      disabledAlert ∉ (spikeEngine.checkAlerts failingWebhook).triggered ∧
      (∀ act : AlertAction,
        (disabledAlert, act) ∉ (spikeEngine.checkAlerts failingWebhook).dispatched) ∧
      (spikeEngine.checkAlerts failingWebhook).state = spikeEngine) :=
  ⟨rfl,
    by simp [detectSpike, spikeContext, mkSnap, List.dropLast],
    disabled_alert_never_dispatches spikeEngine failingWebhook disabledAlert rfl⟩

/-- When an alert's conditions hold, `checkAlerts` hands every one of its
configured actions to `executeAction`, regardless of how sibling actions
fare: every such pair appears in the dispatch log. -/
theorem checkAlertsGo_dispatches_all (context : AlertContext)
    (webhook : String → Bool) :
    ∀ (alerts : List Alert) (alert : Alert) (action : AlertAction),
      alert ∈ alerts → evaluateAlert alert context = true →
      action ∈ alert.actions →
      (alert, action) ∈ (checkAlertsGo context webhook alerts).2
  | [], _, _, h, _, _ => absurd h (List.not_mem_nil _)
  | b :: rest, alert, action, h, hev, hact => by
      rcases List.mem_cons.mp h with rfl | h'
      · simp only [checkAlertsGo, if_pos hev, List.mem_append]
        exact Or.inl (List.mem_map.mpr ⟨action, hact, rfl⟩)
      · have ih := checkAlertsGo_dispatches_all context webhook rest alert action
          h' hev hact
        by_cases hb : evaluateAlert b context = true
        · simp only [checkAlertsGo, if_pos hb, List.mem_append]
          exact Or.inr ih
        · simp only [checkAlertsGo, if_neg hb]
          exact ih

/-- Fixture: an enabled alert with one (failing) Discord webhook action
and one (succeeding) in-app action. -/
def mixedAlert : Alert :=
  { id := "a4", name := "mixed actions", enabled := true,
    conditions := [btcCond], actions := [discordAction, inAppAction],
    createdAt := 0, lastTriggeredAt := none, triggerCount := 0 }

/-- C6: dispatch succeeds iff at least one action reports success — for
every webhook oracle, alert and context, `triggerAlert` is `true` exactly
when some configured action executes successfully; a triggering alert has
every one of its actions executed (logged by `checkAlerts`) regardless of
sibling failures; and concretely, one failing Discord webhook next to one
succeeding in-app action yields an overall `true`. -/
theorem triggerAlert_some_success :
    (∀ (webhook : String → Bool) (alert : Alert) (context : AlertContext),
      triggerAlert webhook alert context = true ↔
        ∃ action ∈ alert.actions, executeAction webhook action = true) ∧
    (∀ (webhook : String → Bool) (context : AlertContext)
        (alerts : List Alert) (alert : Alert) (action : AlertAction),
      alert ∈ alerts → evaluateAlert alert context = true →
      action ∈ alert.actions →
      (alert, action) ∈ (checkAlertsGo context webhook alerts).2) ∧
    executeAction failingWebhook discordAction = false ∧
    executeAction failingWebhook inAppAction = true ∧
    triggerAlert failingWebhook mixedAlert btcContext = true := by
  refine ⟨?_, ?_, rfl, rfl, rfl⟩
  · intro webhook alert context
    simp [triggerAlert, List.any_map, List.any_eq_true, Function.comp]
  · intro webhook context alerts alert action h1 h2 h3
    exact checkAlertsGo_dispatches_all context webhook alerts alert action h1 h2 h3

/-- C6 witness: the dispatch-log clause applied to the concrete mixed
alert: it triggers in the BTC context, and its failing Discord action is
still handed to `executeAction` (it appears in the dispatch log). -/
theorem triggerAlert_some_success_witness :
    mixedAlert ∈ [mixedAlert] ∧
    evaluateAlert mixedAlert btcContext = true ∧
    discordAction ∈ mixedAlert.actions ∧
    (mixedAlert, discordAction) ∈
      (checkAlertsGo btcContext failingWebhook [mixedAlert]).2 :=
  ⟨by decide, by decide, by decide,
    triggerAlert_some_success.2.1 failingWebhook btcContext [mixedAlert]
      mixedAlert discordAction (by decide) (by decide) (by decide)⟩

/-- Fixture: a tweet categorised as breaking news. -/
def newsTweet : Tweet :=
  { mkTweet "n" "news" 0 with category := some .breaking_news }

/-- Fixture: an uncategorised tweet. -/
def plainTweet : Tweet :=
  mkTweet "p" "plain" 0

/-- Fixture: a `category_match` condition on breaking news whose
configured minimum count is `0`. -/
def zeroMinCountCond : AlertCondition :=
  { type := .category_match, threshold := some 0, keywords := none,
    categories := some [.breaking_news], windowMinutes := none }

/-- Fixture: a context with four breaking-news tweets among its most
recent items. -/
def fourMatchContext : AlertContext :=
  { tweets := [newsTweet, newsTweet, newsTweet, newsTweet, plainTweet, plainTweet],
    snapshots := [], currentVelocity := 0, averageVelocity := 0 }

/-- Fixture: a context with five breaking-news tweets among its most
recent items. -/
def fiveMatchContext : AlertContext :=
  { tweets := [newsTweet, newsTweet, newsTweet, newsTweet, newsTweet, plainTweet],
    snapshots := [], currentVelocity := 0, averageVelocity := 0 }

/-- C10: a configured threshold of `0` (or an absent threshold) is falsy
in `condition.threshold || default`, so condition evaluation substitutes
the kind's default: `velocity_spike` falls back to `300`,
`sentiment_shift` to `0.5`, and `category_match` to a minimum count of
`5`; concretely, a `category_match` condition configured with minimum
count `0` is false with four matching recent items and true with five. -/
theorem condition_threshold_defaults :
    (∀ (condition : AlertCondition) (context : AlertContext),
      condition.threshold = none ∨ condition.threshold = some 0 →
      (condition.type = .velocity_spike →
        evaluateCondition condition context =
          (detectSpike context.snapshots 300).isSpike) ∧
      (condition.type = .sentiment_shift →
        evaluateCondition condition context =
          evaluateCondition { condition with threshold := some (1/2) } context) ∧
      (condition.type = .category_match →
        evaluateCondition condition context =
          evaluateCondition { condition with threshold := some 5 } context)) ∧
    evaluateCondition zeroMinCountCond fourMatchContext = false ∧
    evaluateCondition zeroMinCountCond fiveMatchContext = true := by
  refine ⟨?_, ?_, ?_⟩
  · intro condition context h
    obtain ⟨ty, th, kw, cats, wm⟩ := condition
    simp only at h
    refine ⟨?_, ?_, ?_⟩ <;> intro hty <;> simp only at hty <;> subst hty <;>
      simp only [evaluateCondition]
    · have e : jsOr th 300 = 300 := by
        rcases h with rfl | rfl <;> norm_num [jsOr]
      rw [e]
    · have e1 : jsOr th (1/2) = 1/2 := by
        rcases h with rfl | rfl <;> norm_num [jsOr]
      have e2 : jsOr (some (1/2)) (1/2) = 1/2 := by norm_num [jsOr]
      rw [e1, e2]
    · have e1 : jsOr th 5 = 5 := by
        rcases h with rfl | rfl <;> norm_num [jsOr]
      have e2 : jsOr (some 5) 5 = 5 := by norm_num [jsOr]
      rw [e1, e2]
  · norm_num [evaluateCondition, zeroMinCountCond, fourMatchContext,
      newsTweet, plainTweet, mkTweet, jsOr, List.filter]
  · norm_num [evaluateCondition, zeroMinCountCond, fiveMatchContext,
      newsTweet, plainTweet, mkTweet, jsOr, List.filter]

/-- C10 witness: the default-substitution clause applied to the concrete
spike condition with no configured threshold, in the empty context. -/
theorem condition_threshold_defaults_witness :
    (spikeCond.threshold = none ∨ spikeCond.threshold = some 0) ∧
    spikeCond.type = .velocity_spike ∧
    evaluateCondition spikeCond emptyContext =
      (detectSpike emptyContext.snapshots 300).isSpike :=
  ⟨Or.inl rfl, rfl,
    (condition_threshold_defaults.1 spikeCond emptyContext (Or.inl rfl)).1 rfl⟩

/-- The mean the `sentiment_shift` case actually computes, written over
all of the up-to-20 most recent tweets: tweets lacking sentiment
contribute zero to the numerator via `sentScore` but are counted in the
denominator. -/
def meanRecentSentiment (tweets : List Tweet) : ℚ :=
  ((tweets.take 20).map sentScore).sum / ((tweets.take 20).length : ℚ)

/-- Summing present sentiment scores over the sentiment-filtered list is
the same as summing `sentScore` over the whole list, since absent
sentiment scores as zero. -/
theorem sum_sentScore_filter (l : List Tweet) :
    ((l.filter (fun t => t.sentiment.isSome)).map sentScore).sum =
      (l.map sentScore).sum := by
  induction l with
  | nil => rfl
  | cons t rest ih =>
      by_cases h : t.sentiment.isSome
      · simp [List.filter_cons, h, ih]
      · have h0 : sentScore t = 0 := by
          cases hs : t.sentiment with
          | some s => rw [hs] at h; simp at h
          | none => simp [sentScore, hs]
        simp [List.filter_cons, h, ih, h0]

/-- Fixture: a tweet carrying a (maximally positive) sentiment record. -/
def scoredTweet : Tweet :=
  { mkTweet "s1" "good" 0 with
    sentiment := some { score := 1, label := .positive, confidence := 1,
                        keywords := [], analyzedAt := 0 } }

/-- Fixture: a `sentiment_shift` condition with threshold `0.05`. -/
def sentCond : AlertCondition :=
  { type := .sentiment_shift, threshold := some (1/20), keywords := none,
    categories := none, windowMinutes := none }

/-- Fixture: ten recent tweets of which only one carries sentiment. -/
def tenTweetContext : AlertContext :=
  { tweets := [scoredTweet, plainTweet, plainTweet, plainTweet, plainTweet,
               plainTweet, plainTweet, plainTweet, plainTweet, plainTweet],
    snapshots := [], currentVelocity := 0, averageVelocity := 0 }

/-- C3 counterexample: the `sentiment_shift` guard counts all recent
tweets, not tweets with sentiment present.  In a context with ten recent
tweets of which only one carries sentiment (so fewer than 10 items with
sentiment present), the condition with threshold `0.05` nevertheless
evaluates to `true` (mean `1/10 = 0.1 ≥ 0.05`), where the claim requires
`false`. -/
theorem sentiment_guard_ignores_missing_sentiment :
    (tenTweetContext.tweets.filter (fun t => t.sentiment.isSome)).length = 1 ∧
    evaluateCondition sentCond tenTweetContext = true := by
  refine ⟨by decide, ?_⟩
  norm_num [evaluateCondition, sentCond, tenTweetContext, scoredTweet,
    plainTweet, mkTweet, jsOr, sentScore, List.filter]
  rw [abs_of_nonneg (by norm_num : (0:ℚ) ≤ 1/10)]
  norm_num

/-- C3 (amended): a `sentiment_shift` condition is false when the context
holds fewer than 10 recent items in total (sentiment present or not);
otherwise the mean sentiment is taken over the up-to-20 most recent
items, items lacking sentiment contributing zero to the sum but still
counted in the denominator, and the condition holds iff the absolute value
of that mean is at least the threshold. -/
theorem sentiment_shift_eval :
    ∀ (condition : AlertCondition) (context : AlertContext),
      condition.type = .sentiment_shift →
      (context.tweets.length < 10 →
        evaluateCondition condition context = false) ∧
      (10 ≤ context.tweets.length →
        evaluateCondition condition context =
          decide (jsOr condition.threshold (1/2) ≤
            |meanRecentSentiment context.tweets|)) := by
  intro condition context hty
  obtain ⟨ty, th, kw, cats, wm⟩ := condition
  simp only at hty
  subst hty
  constructor
  · intro h
    simp only [evaluateCondition, if_pos h]
  · intro h
    have h' : ¬ context.tweets.length < 10 := by omega
    simp only [evaluateCondition, if_neg h', meanRecentSentiment,
      sum_sentScore_filter]

/-- C3 witness: the amended evaluation rule applied at the concrete
ten-tweet context and the `0.05` threshold condition. -/
theorem sentiment_shift_eval_witness :
    sentCond.type = .sentiment_shift ∧
    10 ≤ tenTweetContext.tweets.length ∧
    evaluateCondition sentCond tenTweetContext =
      decide (jsOr sentCond.threshold (1/2) ≤
        |meanRecentSentiment tenTweetContext.tweets|) :=
  ⟨rfl, by decide,
    (sentiment_shift_eval sentCond tenTweetContext rfl).2 (by decide)⟩

/-- C4 counterexample: resolution can return an empty item list even
though every non-synthetic tier produced an empty or failed result.  With
the RSS tier succeeding but empty and a configured NewsAPI tier
succeeding with zero articles, the route returns the NewsAPI result —
empty, with `source = newsapi` — and never reaches the synthetic tier, so
the response is not the claimed non-empty `maxItems`-item list. -/
theorem resolver_returns_empty_newsapi :
    getTweets 20 [] (some ([], [])) (.ok []) .unconfigured
        (fun _ => plainTweet) =
      { tweets := [], source := .newsapi } ∧
    (getTweets 20 [] (some ([], [])) (.ok []) .unconfigured
        (fun _ => plainTweet)).tweets = [] :=
  ⟨rfl, rfl⟩

/-- C4 (amended): resolution is total, and whenever the RSS tier yields an
empty (or failed, hence empty) filtered result and the NewsAPI and X API
tiers each fail or are unconfigured, the terminal synthetic tier returns
exactly `maxItems` mock items; a configured NewsAPI or X API tier that
succeeds, however, returns its item list directly even when it is empty. -/
theorem resolver_mock_tier_total :
    ∀ (max : ℕ) (keywords : List String)
      (rss : Option (List Tweet × List String))
      (newsApi xApi : ApiOutcome) (mockTweet : ℕ → Tweet),
      rssTierItems max keywords rss = [] →
      (newsApi = .failed ∨ newsApi = .unconfigured) →
      (xApi = .failed ∨ xApi = .unconfigured) →
      (getTweets max keywords rss newsApi xApi mockTweet).source = .mock ∧
      (getTweets max keywords rss newsApi xApi mockTweet).tweets.length = max := by
  intro max keywords rss newsApi xApi mockTweet hrss hn hx
  have hget : getTweets max keywords rss newsApi xApi mockTweet =
      { tweets := (List.range max).map mockTweet, source := .mock } := by
    unfold getTweets
    rw [hrss]
    simp only [ne_eq, not_true_eq_false, if_false]
    rcases hn with rfl | rfl <;> rcases hx with rfl | rfl <;> rfl
  rw [hget]
  simp [List.length_map, List.length_range]

/-- C4 witness: the amended totality statement applied at `maxItems = 3`
with a failed RSS tier and unconfigured NewsAPI / X API tiers. -/
theorem resolver_mock_tier_total_witness :
    rssTierItems 3 [] none = [] ∧
    ((ApiOutcome.unconfigured = .failed ∨ ApiOutcome.unconfigured = .unconfigured)) ∧
    ((getTweets 3 [] none .unconfigured .unconfigured (fun _ => plainTweet)).source
        = .mock ∧
      (getTweets 3 [] none .unconfigured .unconfigured
          (fun _ => plainTweet)).tweets.length = 3) :=
  ⟨rfl, Or.inr rfl,
    resolver_mock_tier_total 3 [] none .unconfigured .unconfigured
      (fun _ => plainTweet) rfl (Or.inr rfl) (Or.inr rfl)⟩

/-- C8 (amended): whatever the per-feed outcomes — and hence regardless of
the order in which the adapters completed or are merged — the merged RSS
output is sorted by `createdAt` newest-first in the non-strict sense:
each item's `createdAt` is greater than or equal to the next one's.
Equal timestamps are kept (in stable order), so the order is
non-increasing rather than strictly decreasing. -/
theorem rss_merge_sorted_newest_first :
    ∀ results : List (Except String (List Tweet)),
      List.Sorted newestFirst (fetchAllRssFeeds results).1 := by
  intro results
  simp only [fetchAllRssFeeds]
  exact List.sorted_insertionSort newestFirst _

/-- Fixture: two distinct tweets from two feeds sharing one `createdAt`. -/
def tweetA : Tweet := mkTweet "rss_a_1" "alpha" 5

/-- Fixture: the second tweet of the shared-timestamp pair. -/
def tweetB : Tweet := mkTweet "rss_b_1" "beta" 5

/-- Fixture: two fulfilled single-item feeds whose items carry the same
creation time. -/
def tieResults : List (Except String (List Tweet)) :=
  [.ok [tweetA], .ok [tweetB]]

/-- C8 counterexample: the merged output is not *strictly* descending in
`createdAt`.  Two feeds can deliver distinct items with the same
timestamp; the merge keeps both, so adjacent equal timestamps occur and
strict descent fails (the order is only non-increasing). -/
theorem rss_merge_not_strictly_descending :
    (fetchAllRssFeeds tieResults).1 = [tweetA, tweetB] ∧
    tweetA ≠ tweetB ∧
    ¬ List.Chain' (fun a b : Tweet => b.createdAt < a.createdAt)
        (fetchAllRssFeeds tieResults).1 := by
  refine ⟨by decide, by decide, ?_⟩
  intro h
  rw [show (fetchAllRssFeeds tieResults).1 = [tweetA, tweetB] from by decide] at h
  rcases List.chain'_cons.mp h with ⟨hlt, -⟩
  exact absurd hlt (by decide)
